import Mathlib

/-!
# Verification of the general-agent orchestration core

Shallow embedding of the orchestration-relevant code of the repository
(`app/events/event_bus.py`, `app/agents/agent_loop.py`, `app/agents/planner.py`,
`app/agents/executor.py`, `app/agents/cua/cua_agent.py`,
`app/memory/redis_memory.py`), together with theorems settling the claims of
the specification against it.

External collaborators (the OpenAI model calls, the browser `Computer`
capability, the Redis connection, the WebSocket transport) are opaque per the
specification; their results enter the embedding as explicit oracle
parameters.  Everything else (control flow, registry updates, Python call
binding, exception propagation) is translated from the source.
-/

namespace EventBus

/-- The global registry `_message_queues` of `app/events/event_bus.py`:
an association list from queue id to the FIFO buffer of pending messages
(head = oldest message). -/
abbrev Queues := List (String × List String)

/-- Look a queue id up in the registry (Python `queue_id in _message_queues`
plus `_message_queues[queue_id]`). -/
def lookupQueue : Queues → String → Option (List String)
  | [], _ => none
  | (k, buf) :: rest, id => if k == id then some buf else lookupQueue rest id

/-- Replace the buffer stored under an existing id (the effect of
`queue.put` / `queue.get` on the queue object held in the registry). -/
def updateQueue : Queues → String → List String → Queues
  | [], _, _ => []
  | (k, buf) :: rest, id, newBuf =>
      if k == id then (k, newBuf) :: rest else (k, buf) :: updateQueue rest id newBuf

/-- Function `get_message_queue` (event_bus.py lines 32-39): create an empty queue for
the id when it is absent, otherwise leave the registry unchanged. -/
def get_message_queue (qs : Queues) (id : String) : Queues :=
  match lookupQueue qs id with
  | none => qs ++ [(id, [])]
  | some _ => qs

/-- The value `send_message` returns, together with the delivery route taken. -/
inductive SendResult
  | enqueued          -- queue existed: `await queue.put(message)`, returns True
  | sentViaWebSocket  -- queue missing, id found in `active_sessions`, `send_text` succeeded: True
  | failed            -- queue missing and no WebSocket delivery: returns False
deriving DecidableEq, Repr

/-- Function `send_message` (event_bus.py lines 41-62).  The queue must already exist
for the message to be enqueued; on a missing id the function does **not**
create a queue but falls back to pushing the text over the WebSocket held in
`api.active_sessions` (a delivery to the client, not to any queue), modelled
by the `activeSessions` list and the `wsOk` oracle for whether `send_text`
raises. -/
def send_message (activeSessions : List String) (wsOk : Bool)
    (qs : Queues) (id : String) (msg : String) : Queues × SendResult :=
  match lookupQueue qs id with
  | some buf => (updateQueue qs id (buf ++ [msg]), .enqueued)
  | none =>
      if activeSessions.contains id && wsOk then (qs, .sentViaWebSocket)
      else (qs, .failed)

/-- Outcome of `receive_message` for the calling task. -/
inductive ReceiveOutcome
  | received (msg : String)  -- `queue.get` yielded a message; it is returned
  | timedOut                 -- `asyncio.TimeoutError` was caught; `None` is returned
  | blocked                  -- falsy timeout and empty queue: `await queue.get()` never resumes
deriving DecidableEq, Repr

/-- The Python value handed back to the caller for each outcome: `none` at the
outer level means the coroutine never returns (it stays blocked); `some none`
is Python `None`, the distinguished timeout sentinel; `some (some m)` is the
message.  No outcome is an exception: the `except` clauses in
`receive_message` swallow `TimeoutError` (and anything else) and return
`None`. -/
def ReceiveOutcome.value : ReceiveOutcome → Option (Option String)
  | received m => some (some m)
  | timedOut => some none
  | blocked => none

/-- Function `receive_message` (event_bus.py lines 64-82).  It first calls
`get_message_queue` (creating the queue when absent), then awaits the queue.
If a message is already buffered it is returned at once.  On an empty queue,
a truthy `timeout` makes `asyncio.wait_for` raise `TimeoutError` once the
interval elapses with no concurrent `send`; the handler returns `None`.
A falsy timeout (`None`/`0`) awaits `queue.get()` unboundedly.  The embedding
is the sequential trace in which no send lands during the wait; the real-time
length of the wait is outside the model. -/
def receive_message (qs : Queues) (id : String) (timeout : ℚ) :
    Queues × ReceiveOutcome :=
  let qs1 := get_message_queue qs id
  match lookupQueue qs1 id with
  | some (m :: rest) => (updateQueue qs1 id rest, .received m)
  | _ => if timeout ≠ 0 then (qs1, .timedOut) else (qs1, .blocked)

/-! ## Event emission (`emit_event` / `emit_event_async`) -/

/-- A registered listener: `run` returns `.error e` when the Python handler
raises an exception with message `e`. -/
structure Handler where
  hid : Nat
  run : String → String → Except String Unit

/-- One handler invocation recorded in the delivery trace.  `sink = true`
marks a WebSocket (sink) handler, `false` a type-specific listener; `idx` is
the handler's position in its registration list; `err = some e` records that
the handler raised and the exception was printed and swallowed. -/
structure TraceEntry where
  sink : Bool
  idx : Nat
  eventType : String
  data : String
  err : Option String
deriving DecidableEq, Repr

/-- The `for handler in handlers: try ... except ...` loop shared by
`emit_event` (lines 112-125) and `emit_event_async` (lines 137-160): every
handler in the list is invoked in order; a raising handler contributes a
trace entry with its error recorded and iteration continues. -/
def runHandlers (sink : Bool) (etype data : String) : Nat → List Handler → List TraceEntry
  | _, [] => []
  | i, h :: rest =>
      { sink := sink, idx := i, eventType := etype, data := data,
        err := match h.run etype data with | .ok _ => none | .error e => some e }
        :: runHandlers sink etype data (i + 1) rest

/-- Functions `emit_event` and `emit_event_async` (event_bus.py lines 104-125 and
127-160): invoke the type-specific listeners registered for the event type,
in registration order, then every WebSocket (sink) handler in registration
order.  The two Python functions differ only in awaiting coroutine handlers;
the delivery semantics embedded here is shared.  The function returns the
delivery trace and never raises to the publisher. -/
def emit_event (listeners : String → List Handler) (wsHandlers : List Handler)
    (etype data : String) : List TraceEntry :=
  runHandlers false etype data 0 (listeners etype) ++ runHandlers true etype data 0 wsHandlers

/-- A sequence of `publish` calls, back to back, producing the concatenated
delivery trace in call order. -/
def publishAll (listeners : String → List Handler) (wsHandlers : List Handler) :
    List (String × String) → List TraceEntry
  | [] => []
  | ev :: rest => emit_event listeners wsHandlers ev.1 ev.2 ++ publishAll listeners wsHandlers rest

end EventBus

namespace PyCall

/-- The Python exceptions that arise in the embedded code. -/
inductive PyError
  | typeError (msg : String)
  | valueError (msg : String)
deriving DecidableEq, Repr

/-- Grammatical number for argument-count messages. -/
def argWord (n : Nat) : String := if n == 1 then "argument" else "arguments"

/-- Python call binding for a plain method `def f(self, p1, ..., pk)` (no
`*args`, no `**kwargs`): `nPos` is the number of positional arguments at the
call site besides the receiver, `kwargs` the keyword-argument names.  The
checks mirror CPython: too many positional arguments, an unexpected keyword
argument, a keyword duplicating a positionally bound parameter, and a missing
required argument each raise `TypeError` before the body runs. -/
def bindCall (fname : String) (params : List String) (nPos : Nat)
    (kwargs : List String) : Except PyError Unit :=
  if nPos > params.length then
    .error (.typeError (fname ++ "() takes " ++ toString (params.length + 1)
      ++ " positional " ++ argWord (params.length + 1) ++ " but "
      ++ toString (nPos + 1) ++ " were given"))
  else
    match kwargs.find? (fun k => !(params.contains k)) with
    | some k => .error (.typeError (fname ++ "() got an unexpected keyword argument " ++ k))
    | none =>
        match kwargs.find? (fun k => (params.take nPos).contains k) with
        | some k => .error (.typeError (fname ++ "() got multiple values for argument " ++ k))
        | none =>
            match (params.drop nPos).find? (fun p => !(kwargs.contains p)) with
            | some p => .error (.typeError (fname ++ "() missing 1 required positional argument: " ++ p))
            | none => .ok ()

end PyCall

namespace Planner

open PyCall

/-- One step of the structured plan returned by the planner model
(planner.py JSON schema lines 62-84): `{step, description}`. -/
structure PlanStep where
  step : Nat
  description : String
deriving DecidableEq, Repr

/-- The JSON object `create_plan` parses out of the model response:
`{clarification_needed, clarifying_questions, plan}`. -/
structure PlanData where
  clarification_needed : Bool
  clarifying_questions : List String
  plan : List PlanStep
deriving DecidableEq, Repr

/-- Parameters of `PlannerAgent.create_plan` (planner.py line 16): a single
positional parameter `user_query` besides `self`; no `**kwargs`. -/
def create_plan_params : List String := ["user_query"]

/-- Calling `PlannerAgent.create_plan` with `nPos` positional arguments and
the given keyword-argument names.  When the call binds, the body runs: it
sends the query to the (external) o1 model and returns the parsed plan, which
the embedding supplies as the `oracle` argument.  When binding fails, the
`TypeError` is raised at the call site and the body (hence the model call)
never runs. -/
def call_create_plan (nPos : Nat) (kwargs : List String) (oracle : PlanData) :
    Except PyError PlanData := do
  bindCall "create_plan" create_plan_params nPos kwargs
  pure oracle

end Planner

namespace RunLoop

open PyCall Planner

/-- The dictionary `_analyze_query_complexity` returns (agent_loop.py lines
330-335 / 354-359); only the fields `run_async` reads are kept.  The analysis
itself wraps an external model call with a heuristic fallback and never
raises. -/
structure ComplexityResult where
  use_direct_response : Bool
  recommended_model : String
deriving DecidableEq, Repr

/-- External-collaborator results consumed by `run_async`, per the spec's
opaque-model-call convention. -/
structure RunEnv where
  complexity : String → ComplexityResult   -- `_analyze_query_complexity` on a query
  directResponse : String → String         -- `_generate_direct_response` on a query
  finalResponse : String                   -- `generate_final_response_async` result

/-- The observable session/runtime state threaded through `run_async`:
the Redis-backed conversation and state mapping, the event types emitted on
the bus, the step descriptions handed to `ExecutorAgent.execute_step_async`,
and the pending oracle answers (plan model results consumed per successful
`create_plan` call, `input()` replies consumed per interactive
clarification). -/
structure RunState where
  conversation : List (String × String)
  state : List (String × String)
  events : List String
  executorCalls : List String
  plans : List PlanData
  clarAnswers : List String
deriving DecidableEq, Repr

/-- Last-write-wins update of one key in the session `state` mapping
(`RedisMemory.update_state`: `session_data["state"].update(...)`). -/
def stateSet (st : List (String × String)) (k v : String) : List (String × String) :=
  if st.any (fun p => p.1 == k) then
    st.map (fun p => if p.1 == k then (k, v) else p)
  else st ++ [(k, v)]

/-- The fixed terminal failure string of agent_loop.py line 136. -/
def failureMessage : String :=
  "Failed to create a plan. Please try again with a more specific query."

/-- What one `run_async` call produces for its caller. -/
inductive RunOutcome
  | direct (resp : String)                            -- direct-response path
  | clarification (questions : List String) (msg : String)  -- non-interactive clarification dict
  | failed (msg : String)                             -- the fixed failure string
  | final (resp : String)                             -- plan executed, final response
  | raised (e : PyError)                              -- an exception propagated out
  | outOfFuel                                         -- recursion fuel exhausted (unbounded in Python)
deriving DecidableEq, Repr

/-- Stringly encoding of a plan stored into session state (`update_state
{"plan": plan}`); only its presence matters to the claims. -/
def encodePlan (plan : List PlanStep) : String :=
  String.intercalate "; " (plan.map (fun s => s.description))

/-- Method `_execute_plan_async` (agent_loop.py lines 159-252): emit `executing`,
then for each step emit `step` and `executing_step` and hand the step to the
Step Executor, then emit `finalizing`, synthesize the final response, append
it as an assistant message and emit `complete`.  The per-step
`ExecutionContext` bookkeeping and the Redis round-trips are kept only
through their observables here: the emitted event types, the executor
dispatches, and the conversation. -/
def execute_plan_async (env : RunEnv) (st : RunState) (plan : List PlanStep) :
    String × RunState :=
  let st := { st with events := st.events ++ ["executing"] }
  let st := plan.foldl (fun s stp =>
      { s with events := s.events ++ ["step", "executing_step"],
               executorCalls := s.executorCalls ++ [stp.description] }) st
  let st := { st with events := st.events ++ ["finalizing"] }
  let final := env.finalResponse
  let st := { st with conversation := st.conversation ++ [("assistant", final)],
                      events := st.events ++ ["complete"] }
  (final, st)

/-- A default plan value for the oracle stream; only read on paths where the
planner call binds with an exhausted oracle stream, which no theorem relies
on. -/
def defaultPlanData : PlanData := { clarification_needed := false, clarifying_questions := [], plan := [] }

/-- Lines 131-144 of agent_loop.py, shared by the two control paths that
reach them: extract `plan`, return the fixed failure string when it is empty,
otherwise emit `plan`, store it in state and execute. -/
def finishPlanning (env : RunEnv) (st : RunState) (plan : List PlanStep) :
    RunOutcome × RunState :=
  if plan.isEmpty then (.failed failureMessage, st)
  else
    let st := { st with events := st.events ++ ["plan"],
                        state := stateSet st.state "plan" (encodePlan plan) }
    let (final, st) := execute_plan_async env st plan
    (.final final, st)

/-- Method `AgentLoop.run_async` (agent_loop.py lines 48-144).  Fuel bounds the
self-recursion of line 119 (unbounded in Python); each level: store the
query, append the user message, analyze complexity, either answer directly or
emit `thinking` and call `self.planner.create_plan(conversation,
model=complexity_result["recommended_model"])` — one positional argument plus
the keyword argument `model` — then handle clarification
(interactive: consume an `input()` reply and re-plan via the keyword-free
call of line 114; non-interactive: return the clarification dict), and
finally extract and run the plan.  Exceptions propagate as `.raised`. -/
def run_async : Nat → Bool → RunEnv → RunState → String → RunOutcome × RunState
  | 0, _, _, st, _ => (.outOfFuel, st)
  | fuel + 1, interactive, env, st, query =>
    let st := { st with state := stateSet st.state "original_query" query,
                        conversation := st.conversation ++ [("user", query)] }
    let cr := env.complexity query
    if cr.use_direct_response then
      let resp := env.directResponse query
      let st := { st with conversation := st.conversation ++ [("assistant", resp)],
                          events := st.events ++ ["complete"] }
      (.direct resp, st)
    else
      let st := { st with events := st.events ++ ["thinking"] }
      match call_create_plan 1 ["model"] (st.plans.headD defaultPlanData) with
      | .error e => (.raised e, st)
      | .ok pd =>
        let st := { st with plans := st.plans.tail }
        if pd.clarification_needed then
          let amsg := "I need some clarification: "
            ++ String.intercalate " " pd.clarifying_questions
          let st := { st with conversation := st.conversation ++ [("assistant", amsg)] }
          if interactive then
            let uc := st.clarAnswers.headD ""
            let st := { st with clarAnswers := st.clarAnswers.tail,
                                conversation := st.conversation ++ [("user", uc)] }
            match call_create_plan 1 [] (st.plans.headD defaultPlanData) with
            | .error e => (.raised e, st)
            | .ok pd2 =>
              let st := { st with plans := st.plans.tail }
              if pd2.clarification_needed then
                run_async fuel interactive env st uc
              else
                finishPlanning env st pd2.plan
          else
            (.clarification pd.clarifying_questions amsg, st)
        else
          finishPlanning env st pd.plan

end RunLoop

namespace Memory

open PyCall

/-- The session record `create_session` stores (redis_memory.py lines
36-41): `{created_at, updated_at, state: {}, conversation: []}`. -/
structure SessionData where
  created_at : Nat
  updated_at : Nat
  state : List (String × String)
  conversation : List (String × String)
deriving DecidableEq, Repr

/-- The Redis keyspace, restricted to the session records. -/
abbrev SessionStore := List (String × SessionData)

/-- Parameters of `RedisMemory.create_session` (redis_memory.py line 25):
no parameter besides `self`. -/
def create_session_params : List String := []

/-- Method `RedisMemory.get_session` (redis_memory.py lines 52-66): read the record
stored under the key `"session:" ++ sid`, `none` when absent. -/
def get_session (store : SessionStore) (sid : String) : Option SessionData :=
  (store.find? (fun p => p.1 == "session:" ++ sid)).map (fun p => p.2)

/-- Calling `RedisMemory.create_session` with `nPos` positional arguments
besides the receiver.  When the call binds (only `nPos = 0` does), the body
generates a fresh UUID (the `uuid` oracle), stores a fresh record under
`"session:" ++ uuid` with the current timestamp and the default TTL, and
returns the UUID.  The function has no way to key a record under a
caller-chosen id. -/
def call_create_session (nPos : Nat) (kwargs : List String) (uuid : String)
    (now : Nat) (store : SessionStore) : Except PyError (String × SessionStore) := do
  bindCall "create_session" create_session_params nPos kwargs
  pure (uuid, store ++ [("session:" ++ uuid,
    { created_at := now, updated_at := now, state := [], conversation := [] })])

/-- Constructor `AgentLoop.__init__` (agent_loop.py lines 20-33), restricted to its
session-establishment effect: with a session id whose record exists, keep the
id; with a session id on first contact (no record), the code runs
`self.session_id = self.memory_manager.create_session(session_id)` — one
positional argument besides `self`; with no session id, it runs
`create_session()`.  The result is the established session id and the
updated store, or the exception the call raises. -/
def agentLoopInit (store : SessionStore) (uuid : String) (now : Nat)
    (sessionId : Option String) : Except PyError (String × SessionStore) :=
  match sessionId with
  | some sid =>
      match get_session store sid with
      | some _ => .ok (sid, store)
      | none => call_create_session 1 [] uuid now store
  | none => call_create_session 0 [] uuid now store

end Memory

namespace Executor

/-- An item of `response.output` as the executor inspects it
(executor.py lines 88-139): a `function_call` (its `arguments` JSON is
represented post-`json.loads` by its `task` field), a `web_search_call`
(resolved by the model itself), or a plain message. -/
inductive OutItem
  | functionCall (name : String) (task : String) (callId : String)
  | webSearchCall
  | message (text : String)
deriving DecidableEq, Repr

/-- One model reply: the ordered output items plus `response.output_text`. -/
structure ModelResponse where
  output : List OutItem
  outputText : String
deriving DecidableEq, Repr

/-- An element of `memory["conversation"]` after the executor has run:
pre-existing entries are opaque (`base`); when no function call is present
the whole `response.output` list is appended as a single element
(executor.py line 96); with a function call each item is appended
individually as its `__dict__` (lines 99-101); tool results are appended as
`function_call_output` dicts (lines 129-130, 148-154 — the `json.dumps`
serialization of the transcript string is elided, the payload is kept
verbatim). -/
inductive ConvItem
  | base (s : String)
  | outputList (items : List OutItem)
  | outputItem (item : OutItem)
  | functionCallOutput (callId : String) (output : String)
deriving DecidableEq, Repr

/-- The state `execute_step_async` reads and mutates: the conversation, the
stream of future model replies (each `responses.create` call consumes one),
and the events emitted through the `emit_event_async` argument. -/
structure StepState where
  conversation : List ConvItem
  responses : List ModelResponse
  events : List (String × String)
deriving DecidableEq, Repr

/-- How many model round-trips an executor run performed: the number of
entries consumed from the reply stream. -/
def roundTrips (before after : StepState) : Nat :=
  before.responses.length - after.responses.length

/-- The `for message in response.output` loop of executor.py lines 103-139,
threading `result`, the conversation, and the event trace: a `function_call`
always emits `tool_usage`; a `computer_use` call additionally emits
`cua_event`, delegates the task to `handle_cua_request` (the `cua` oracle),
appends the `function_call_output` carrying the transcript under the same
call id, and sets `result` to the transcript; `web_search_call` and plain
messages set `result` to `response.output_text`.  No branch re-queries the
model: the recursive call of line 134 is commented out in the source. -/
def processItems (cua : String → String) (outputText : String) :
    List OutItem → String → StepState → String × StepState
  | [], result, st => (result, st)
  | .functionCall name task callId :: rest, result, st =>
      let st := { st with events := st.events ++ [("tool_usage", name)] }
      if name == "computer_use" then
        let st := { st with events := st.events ++ [("cua_event", task)] }
        let toolResponse := cua task
        let st := { st with conversation :=
          st.conversation ++ [.functionCallOutput callId toolResponse] }
        processItems cua outputText rest toolResponse st
      else
        processItems cua outputText rest result st
  | .webSearchCall :: rest, _, st =>
      processItems cua outputText rest outputText st
  | .message _ :: rest, _, st =>
      processItems cua outputText rest outputText st

/-- Method `ExecutorAgent.execute_step_async` (executor.py lines 37-146): one call
to `responses.create` (consuming the head of the reply stream; an exhausted
stream models the external call raising, which the `except` clause re-raises,
line 146), then the append of the output to the conversation (as one element
when no function call is present, item by item otherwise), then the item
loop.  The function returns the step result text and the final state. -/
def execute_step_async (cua : String → String) (st : StepState) :
    Except String (String × StepState) :=
  match st.responses with
  | [] => .error "Error executing step: model call failed"
  | resp :: rest =>
      let hasFC := resp.output.any (fun it =>
        match it with | .functionCall _ _ _ => true | _ => false)
      let conv1 :=
        if hasFC then st.conversation ++ resp.output.map ConvItem.outputItem
        else st.conversation ++ [ConvItem.outputList resp.output]
      let st1 : StepState := { conversation := conv1, responses := rest, events := st.events }
      .ok (processItems cua resp.outputText resp.output "" st1)

end Executor

namespace Cua

/-- An item of the CUA turn conversation (cua_agent.py): model output items
(`message` with assistant role, `reasoning` with its `summary_text` texts,
`computer_call` with its action type and pending safety-check messages, any
other typed item) and the items the loop itself appends (synthesized `user`
items and `computer_call_output` dicts). -/
inductive TurnItem
  | message (text : String)
  | reasoning (summaries : List String)
  | computerCall (callId : String) (actionType : String) (pendingChecks : List String)
  | otherItem (ty : String)
  | userItem (content : String)
  | callOutput (callId : String) (acks : List String) (screenshot : String)
deriving DecidableEq, Repr

/-- Accessor `item.get("role")`: model `message` items carry `role = "assistant"`,
synthesized user items `role = "user"`; the remaining item shapes have no
`role` key. -/
def TurnItem.role : TurnItem → Option String
  | message _ => some "assistant"
  | userItem _ => some "user"
  | _ => none

/-- Python `text.endswith("?")` (cua_agent.py line 58): with the
one-character suffix this is exactly the last-character test. -/
def endsWithQuestion (s : String) : Bool := s.data.getLast? == some '?'

/-- The synthesized reply folded in when the clarification wait times out or
the delivered answer is falsy (cua_agent.py line 91). -/
def terminateContent : String :=
  "User did not respond to clarification request. Please terminate the task."

/-- The `ValueError` message for an unacknowledged safety check
(cua_agent.py lines 189-191). -/
def safetyMessage (check : String) : String :=
  "Safety check failed: " ++ check ++ ". Cannot continue with unacknowledged safety checks."

/-- Method `CuaAgent.handle_item` (cua_agent.py lines 50-209).  Parameters: `ack`
is the `acknowledge_safety_check_callback`; `emitP` whether
`self.emit_event_async` is set; `shot` the screenshot the `Computer`
capability returns; `clars` the stream of `receive_message` results for
clarification waits (one consumed per wait; `none` is the 300-second
timeout).  `print_steps` is `true` throughout (its default, which
`run_full_turn` re-installs), so the question check always runs.  Returns
the items to append, the remaining clarification stream, and the emitted
events — or the raised exception with the events emitted before the raise.

* `message` ending in `?` with an emitter: emit `cua_clarification`, create
  the queue, await the answer; a truthy answer is folded back as a `user`
  item, a timeout (`None`) or falsy answer yields the synthesized
  terminate-task `user` item.  Exceptions inside the Python `try` are caught
  and fall through to the empty return; no expression in this model raises.
* `reasoning`: best-effort telemetry — emit `cua_reasoning` when a
  `summary_text` is present (the loop keeps the last one); the action-tag
  decoration of the payload (lines 110-152) is elided; control flow always
  falls through to the empty return.
* `computer_call`: dispatch the action and take a screenshot, then require
  every pending safety check to be acknowledged; the first unacknowledged
  check raises `ValueError` before any `computer_call_output` is built;
  otherwise append the output carrying the screenshot, with
  `acknowledged_safety_checks` set to all pending checks. -/
def handle_item (ack : String → Bool) (emitP : Bool) (shot : String)
    (clars : List (Option String)) :
    TurnItem →
      Except (String × List (String × String))
        (List TurnItem × List (Option String) × List (String × String))
  | .message text =>
      if emitP && endsWithQuestion text then
        let ans := clars.headD none
        let rest := clars.tail
        let evs := [("cua_clarification", text)]
        match ans with
        | some s =>
            if s ≠ "" then .ok ([.userItem s], rest, evs)
            else .ok ([.userItem terminateContent], rest, evs)
        | none => .ok ([.userItem terminateContent], rest, evs)
      else .ok ([], clars, [])
  | .reasoning summaries =>
      let text := (summaries.getLast?).getD ""
      if emitP && text ≠ "" then .ok ([], clars, [("cua_reasoning", text)])
      else .ok ([], clars, [])
  | .computerCall callId actionType checks =>
      match checks.find? (fun c => !(ack c)) with
      | some c => .error (safetyMessage c, [("computer_call", actionType)])
      | none => .ok ([.callOutput callId checks shot], clars, [("computer_call", actionType)])
  | _ => .ok ([], clars, [])

/-- The `for item in response["output"]` loop of `run_full_turn`
(cua_agent.py lines 246-259): handle each output item in order, appending the
returned items to `new_items`; an exception propagates immediately, carrying
(for the statement of the claims) the items accumulated so far and the
events. -/
def processOutput (ack : String → Bool) (emitP : Bool) (shot : String) :
    List TurnItem → List TurnItem → List (Option String) → List (String × String) →
      Except (String × List TurnItem × List (String × String))
        (List TurnItem × List (Option String) × List (String × String))
  | [], acc, clars, evs => .ok (acc, clars, evs)
  | item :: rest, acc, clars, evs =>
      match handle_item ack emitP shot clars item with
      | .error (msg, evs2) => .error (msg, acc, evs ++ evs2)
      | .ok (res, clars2, evs2) =>
          processOutput ack emitP shot rest (acc ++ res) clars2 (evs ++ evs2)

/-- What a `run_full_turn` call produces. -/
inductive TurnOutcome
  | done (items : List TurnItem)                 -- loop ended on an assistant item
  | raised (msg : String) (items : List TurnItem) -- an exception propagated; `items` is
                                                  -- `new_items` at the moment of the raise
  | fuelOut (items : List TurnItem)              -- fuel exhausted (loop unbounded in Python)
deriving DecidableEq, Repr

/-- Accessor `new_items[-1].get("role")`. -/
def lastRole (items : List TurnItem) : Option String :=
  match items.getLast? with
  | some it => it.role
  | none => none

/-- Method `CuaAgent.run_full_turn` (cua_agent.py lines 211-261): keep requesting
the next model turn (`responses` is the stream of `create_response` outputs;
an exhausted stream models the debug-mode `ValueError` of line 242) until the
most recently appended item has assistant role; each turn appends the whole
output, then handles the items in order.  The monitoring/intervention pass
(lines 250-256) is commented out in the source.  An exception from
`handle_item` propagates out of the loop. -/
def run_full_turn (ack : String → Bool) (emitP : Bool) (shot : String) :
    Nat → List (List TurnItem) → List (Option String) →
      List TurnItem → List TurnItem → TurnOutcome
  | 0, _, _, _, newItems => .fuelOut newItems
  | fuel + 1, responses, clars, inputItems, newItems =>
      if newItems ≠ [] ∧ lastRole newItems = some "assistant" then .done newItems
      else
        match responses with
        | [] => .raised "No output from model" newItems
        | out :: rest =>
            let items1 := newItems ++ out
            match processOutput ack emitP shot out items1 clars [] with
            | .error (msg, acc, _) => .raised msg acc
            | .ok (acc, clars2, _) =>
                run_full_turn ack emitP shot fuel rest clars2 inputItems acc

end Cua

namespace Fixtures

/-- Concrete safety callback that acknowledges nothing. -/
def ackNone : String → Bool := fun _ => false

/-- Concrete `handle_cua_request` oracle. -/
def cuaOracle : String → String := fun task => "CUA transcript: " ++ task

/-- A model reply whose output is a single `computer_use` function call. -/
def respFC : Executor.ModelResponse :=
  { output := [.functionCall "computer_use" "book the flight" "call_1"], outputText := "" }

/-- A follow-up model reply containing only a plain assistant message. -/
def respPlain : Executor.ModelResponse :=
  { output := [.message "All done."], outputText := "All done." }

/-- Executor state before a step: two model replies are available. -/
def stStep : Executor.StepState :=
  { conversation := [.base "user query"], responses := [respFC, respPlain], events := [] }

/-- Executor state after the step on the source's code path: the function
call record and the `function_call_output` are folded into the conversation,
but the second model reply was never requested. -/
def stStepOut : Executor.StepState :=
  { conversation :=
      [.base "user query",
       .outputItem (.functionCall "computer_use" "book the flight" "call_1"),
       .functionCallOutput "call_1" "CUA transcript: book the flight"],
    responses := [respPlain],
    events := [("tool_usage", "computer_use"), ("cua_event", "book the flight")] }

/-- Run-loop environment whose complexity analysis always routes to the
planning path. -/
def envPlan : RunLoop.RunEnv :=
  { complexity := fun _ => { use_direct_response := false, recommended_model := "o3-mini" },
    directResponse := fun _ => "",
    finalResponse := "done" }

/-- Fresh run-loop state whose pending planner result is an empty plan with
no clarification request. -/
def stPlanEmpty : RunLoop.RunState :=
  { conversation := [], state := [], events := [], executorCalls := [],
    plans := [{ clarification_needed := false, clarifying_questions := [], plan := [] }],
    clarAnswers := [] }

/-- A `computer_call` item carrying one pending safety check. -/
def ccDemo : Cua.TurnItem := .computerCall "call-9" "click" ["confirm purchase"]

end Fixtures

/-! ## Helper lemmas -/

open EventBus PyCall Planner RunLoop Memory Executor Cua Fixtures

theorem lookupQueue_update (qs : Queues) (id : String) (newBuf buf : List String)
    (h : lookupQueue qs id = some buf) :
    lookupQueue (updateQueue qs id newBuf) id = some newBuf := by
  induction qs with
  | nil => simp [lookupQueue] at h
  | cons p rest ih =>
      obtain ⟨k, b⟩ := p
      by_cases hk : k == id
      · simp [lookupQueue, updateQueue, hk]
      · simp [lookupQueue, updateQueue, hk] at h ⊢
        exact ih h

theorem lookupQueue_append_missing (qs : Queues) (id : String) (buf : List String)
    (h : lookupQueue qs id = none) :
    lookupQueue (qs ++ [(id, buf)]) id = some buf := by
  induction qs with
  | nil => simp [lookupQueue]
  | cons p rest ih =>
      obtain ⟨k, b⟩ := p
      by_cases hk : k == id
      · simp [lookupQueue, hk] at h
      · simp [lookupQueue, hk] at h ⊢
        exact ih h

theorem runHandlers_filter_sink_false (etype data : String) (i : Nat) (hs : List Handler) :
    (runHandlers false etype data i hs).filter (fun t => t.sink) = [] := by
  induction hs generalizing i with
  | nil => simp [runHandlers]
  | cons h rest ih => simp [runHandlers, List.filter, ih]

theorem runHandlers_filter_sink_true (etype data : String) (i : Nat) (hs : List Handler) :
    (runHandlers true etype data i hs).filter (fun t => t.sink) =
      runHandlers true etype data i hs := by
  induction hs generalizing i with
  | nil => simp [runHandlers]
  | cons h rest ih => simp [runHandlers, List.filter, ih]

theorem runHandlers_length (sink : Bool) (etype data : String) (i : Nat) (hs : List Handler) :
    (runHandlers sink etype data i hs).length = hs.length := by
  induction hs generalizing i with
  | nil => simp [runHandlers]
  | cons h rest ih => simp [runHandlers, ih]

/-- Compositionality of the CUA output-handling loop over list append. -/
theorem processOutput_append (ack : String → Bool) (emitP : Bool) (shot : String)
    (xs ys : List TurnItem) (acc : List TurnItem) (clars : List (Option String))
    (evs : List (String × String)) :
    processOutput ack emitP shot (xs ++ ys) acc clars evs
      = match processOutput ack emitP shot xs acc clars evs with
        | .ok (a, c, e) => processOutput ack emitP shot ys a c e
        | .error err => .error err := by
  induction xs generalizing acc clars evs with
  | nil => simp [processOutput]
  | cons item rest ih =>
      simp only [List.cons_append, processOutput]
      cases handle_item ack emitP shot clars item with
      | error err => rfl
      | ok res => exact ih _ _ _

/-! ## Claim theorems -/

/-- C1 counterexample.  The claim states that `send` on an id with no queue
creates the queue and enqueues the message, so a producer-first
`send(id, "R"); receive(id, T)` delivers `"R"`.  On the code it does not:
starting from an empty registry, `send_message` leaves the registry
unchanged and returns `False`, and the subsequent `receive_message` times
out with the `None` sentinel instead of `"R"`. -/
theorem c1_producer_first_counterexample :
    send_message [] false [] "q1" "R" = ([], SendResult.failed) ∧
    (receive_message (send_message [] false [] "q1" "R").1 "q1" 1).2
      = ReceiveOutcome.timedOut ∧
    ReceiveOutcome.timedOut ≠ ReceiveOutcome.received "R" := by
  refine ⟨rfl, ?_, by decide⟩
  simp [send_message, receive_message, get_message_queue, lookupQueue]

/-- C1 amended.  Delivery through the Correlation Queue Registry requires the
queue to exist before the `send`: when the queue for the id already exists
(the consumer-first order, since `receive_message`/`get_message_queue`
creates it) and holds no stale message, `send(id, m)` enqueues and the
`receive` returns `m`; when no queue exists, `send` does not create one, the
registry is unchanged, the message is never enqueued (the WebSocket fallback
delivers to the client, not to a queue), and a later `receive` with a
positive timeout returns the timeout sentinel instead of `m`. -/
theorem c1_send_requires_existing_queue (as : List String) (ws : Bool) (qs : Queues)
    (id m : String) (t : ℚ) (ht : 0 < t) :
    (lookupQueue qs id = some [] →
      (receive_message (send_message as ws qs id m).1 id t).2
        = ReceiveOutcome.received m) ∧
    (lookupQueue qs id = none →
      (send_message as ws qs id m).1 = qs ∧
      (send_message as ws qs id m).2 ≠ SendResult.enqueued ∧
      (receive_message (send_message as ws qs id m).1 id t).2
        = ReceiveOutcome.timedOut) := by
  constructor
  · intro h
    have h1 : lookupQueue (updateQueue qs id ([] ++ [m])) id = some ([] ++ [m]) :=
      lookupQueue_update qs id ([] ++ [m]) [] h
    simp only [List.nil_append] at h1
    simp [send_message, h, receive_message, get_message_queue, h1]
  · intro h
    have h2 : lookupQueue (qs ++ [(id, [])]) id = some [] :=
      lookupQueue_append_missing qs id [] h
    refine ⟨?_, ?_, ?_⟩
    · simp only [send_message, h]
      split <;> rfl
    · simp only [send_message, h]
      split <;> simp
    · have hfst : (send_message as ws qs id m).1 = qs := by
        simp only [send_message, h]
        split <;> rfl
      rw [hfst]
      simp [receive_message, get_message_queue, h, h2, ht.ne']

/-- Witness for the C1 amended theorem at a concrete consumer-first input:
the queue for `"q1"` exists and is empty, so `send` then `receive`
delivers `"R"`. -/
theorem c1_send_requires_existing_queue_witness :
    lookupQueue [("q1", [])] "q1" = some [] ∧ (0 : ℚ) < 1 ∧
    (receive_message (send_message [] false [("q1", [])] "q1" "R").1 "q1" 1).2
      = ReceiveOutcome.received "R" :=
  ⟨rfl, by norm_num,
    (c1_send_requires_existing_queue [] false [("q1", [])] "q1" "R" 1 (by norm_num)).1 rfl⟩

/-- C7.  `receive_message` on an id for which no message was ever sent (the
queue is absent — it is then created on the spot — or empty), with a
positive timeout, returns the distinguished `None` sentinel
(`ReceiveOutcome.value .timedOut = some none`: the call returns, it neither
raises — `TimeoutError` is caught inside — nor blocks).  The real-time
length of the wait is outside the embedding. -/
theorem c7_receive_timeout_returns_sentinel (qs : Queues) (id : String) (t : ℚ)
    (hempty : lookupQueue qs id = none ∨ lookupQueue qs id = some [])
    (ht : 0 < t) :
    (receive_message qs id t).2 = ReceiveOutcome.timedOut ∧
    ReceiveOutcome.value (receive_message qs id t).2 = some none := by
  have hmain : (receive_message qs id t).2 = ReceiveOutcome.timedOut := by
    cases hempty with
    | inl h =>
        have h2 : lookupQueue (qs ++ [(id, [])]) id = some [] :=
          lookupQueue_append_missing qs id [] h
        simp [receive_message, get_message_queue, h, h2, ht.ne']
    | inr h =>
        simp [receive_message, get_message_queue, h, ht.ne']
  exact ⟨hmain, by rw [hmain]; rfl⟩

/-- Witness for C7 at a concrete input: empty registry, timeout `0.05`. -/
theorem c7_receive_timeout_returns_sentinel_witness :
    (0 : ℚ) < 1 / 20 ∧
    ((receive_message [] "job-42" (1 / 20)).2 = ReceiveOutcome.timedOut ∧
     ReceiveOutcome.value (receive_message [] "job-42" (1 / 20)).2 = some none) :=
  ⟨by norm_num,
    c7_receive_timeout_returns_sentinel [] "job-42" (1 / 20) (Or.inl rfl) (by norm_num)⟩

/-- C6.  For any sequence of publish calls, the sink (websocket) portion of the
delivery trace is exactly one block per published event, in publish order,
each block invoking every registered sink handler once in registration order
— regardless of which type-specific or sink handlers raise (their exceptions
are recorded in the trace entry and swallowed; `emit_event` returns the trace
and never raises to the publisher).  Moreover each block has exactly one
entry per sink handler, and within one emission the type-specific handlers
run before the sink handlers. -/
theorem c6_sink_handlers_receive_every_event (L : String → List Handler)
    (ws : List Handler) (events : List (String × String)) :
    (publishAll L ws events).filter (fun t => t.sink)
      = (events.map (fun ev => runHandlers true ev.1 ev.2 0 ws)).flatten ∧
    (∀ e d, (runHandlers true e d 0 ws).length = ws.length) ∧
    (∀ e d, emit_event L ws e d
      = runHandlers false e d 0 (L e) ++ runHandlers true e d 0 ws) := by
  refine ⟨?_, fun e d => runHandlers_length true e d 0 ws, fun e d => rfl⟩
  induction events with
  | nil => simp [publishAll]
  | cons ev rest ih =>
      simp [publishAll, emit_event, List.filter_append,
        runHandlers_filter_sink_false, runHandlers_filter_sink_true, ih]

/-- C2 evaluation at the failing input.  A step whose first model response
contains a `computer_use` function call: the executor folds the
`function_call_output` into the conversation, but performs exactly **one**
model round-trip — the second model reply is never requested (the recursive
re-query of executor.py line 134 is commented out) and the step result is the
tool transcript, not a second response's text. -/
theorem c2_executor_single_round_trip :
    execute_step_async cuaOracle stStep
      = .ok ("CUA transcript: book the flight", stStepOut) ∧
    roundTrips stStep stStepOut = 1 ∧
    stStepOut.responses = [respPlain] ∧
    ConvItem.functionCallOutput "call_1" "CUA transcript: book the flight"
      ∈ stStepOut.conversation ∧
    (1 : Nat) ≠ 2 := by
  refine ⟨rfl, rfl, rfl, ?_, by decide⟩
  simp [stStepOut]

/-- C3 evaluation at the failing input.  Constructing the Agent Run-Loop with
a session id on first contact (no record in the store) raises
`TypeError: create_session() takes 1 positional argument but 2 were given`
instead of creating a record under that id — `AgentLoop.__init__` passes the
id to `RedisMemory.create_session`, whose signature takes no argument.  And
even the binding-correct zero-argument call keys the new record under a
fresh UUID, never under a caller-presented id. -/
theorem c3_first_contact_raises_typeError :
    agentLoopInit [] "3f2a-uuid" 1000 (some "sess-1")
      = .error (.typeError "create_session() takes 1 positional argument but 2 were given") ∧
    get_session [] "sess-1" = none ∧
    call_create_session 0 [] "3f2a-uuid" 1000 []
      = .ok ("3f2a-uuid", [("session:3f2a-uuid",
          { created_at := 1000, updated_at := 1000, state := [], conversation := [] })]) := by
  refine ⟨?_, rfl, rfl⟩
  rfl

/-- C4.  An unacknowledged pending safety check on a `computer_call` is a hard
failure: handling the call raises `ValueError` before any
`computer_call_output` is built, so the output-handling loop stops with the
items accumulated before that call unchanged (no `computer_call_output` is
produced for the failing call or for any item after it), and `run_full_turn`
propagates the exception — the turn loop aborts with only the raw model
output appended. -/
theorem c4_unacked_safety_check_aborts (ack : String → Bool) (emitP : Bool)
    (shot : String) (pre post : List TurnItem) (acc acc2 : List TurnItem)
    (clars clars2 : List (Option String)) (evs evs2 : List (String × String))
    (cid aty c0 : String) (checks : List String)
    (hpre : processOutput ack emitP shot pre acc clars evs = .ok (acc2, clars2, evs2))
    (hchk : checks.find? (fun c => !(ack c)) = some c0) :
    processOutput ack emitP shot
        (pre ++ TurnItem.computerCall cid aty checks :: post) acc clars evs
      = .error (safetyMessage c0, acc2, evs2 ++ [("computer_call", aty)]) ∧
    ∀ fuel responses inputItems,
      run_full_turn ack emitP shot (fuel + 1)
          ((TurnItem.computerCall cid aty checks :: post) :: responses) clars inputItems []
        = .raised (safetyMessage c0) (TurnItem.computerCall cid aty checks :: post) := by
  constructor
  · rw [processOutput_append, hpre]
    simp [processOutput, handle_item, hchk]
  · intro fuel responses inputItems
    simp [run_full_turn, lastRole, processOutput, handle_item, hchk]

/-- Witness for C4 at a concrete input: a `click` call with the pending check
`"confirm purchase"` and a callback acknowledging nothing. -/
theorem c4_unacked_safety_check_aborts_witness :
    processOutput ackNone true "shot0" ([] ++ ccDemo :: []) [] [] []
      = .error (safetyMessage "confirm purchase", [], [] ++ [("computer_call", "click")]) ∧
    run_full_turn ackNone true "shot0" (0 + 1) ((ccDemo :: []) :: []) [] [] []
      = .raised (safetyMessage "confirm purchase") (ccDemo :: []) :=
  have h := c4_unacked_safety_check_aborts ackNone true "shot0" [] [] [] [] [] []
    [] [] "call-9" "click" "confirm purchase" ["confirm purchase"] rfl rfl
  ⟨h.1, h.2 0 [] []⟩

/-- C5 evaluation at the failing input.  A query routed to the planning path
whose planner result would be an empty plan never reaches the empty-plan
check: `run_async` raises the `TypeError` from the
`create_plan(conversation, model=...)` call first, so the fixed failure
string is not returned and the Step Executor is not invoked — but for the
claimed reason (the path is unreachable), not by the claimed behaviour. -/
theorem c5_empty_plan_path_unreachable :
    (run_async 1 false envPlan stPlanEmpty "compare apples and oranges").1
      = .raised (.typeError "create_plan() got an unexpected keyword argument model") ∧
    (run_async 1 false envPlan stPlanEmpty "compare apples and oranges").1
      ≠ .failed failureMessage ∧
    (run_async 1 false envPlan stPlanEmpty "compare apples and oranges").2.executorCalls
      = [] := by
  refine ⟨rfl, ?_, rfl⟩
  intro hcon
  simp [run_async, envPlan, stPlanEmpty, call_create_plan, bindCall,
    create_plan_params] at hcon

/-- C9.  Every query the complexity analysis routes to the planning path
(`use_direct_response = false`) makes `run_async` raise
`TypeError: create_plan() got an unexpected keyword argument model` — the
call site passes `model=...` while `create_plan` accepts only the query — so
the run raises before any plan is produced: the only event emitted on the
path is `thinking` (no `plan` event) and no step is handed to the Step
Executor. -/
theorem c9_planning_path_raises_typeError (fuel : Nat) (interactive : Bool)
    (env : RunEnv) (st : RunState) (q : String)
    (h : (env.complexity q).use_direct_response = false) :
    (run_async (fuel + 1) interactive env st q).1
      = .raised (.typeError "create_plan() got an unexpected keyword argument model") ∧
    (run_async (fuel + 1) interactive env st q).2.executorCalls = st.executorCalls ∧
    (run_async (fuel + 1) interactive env st q).2.events = st.events ++ ["thinking"] := by
  refine ⟨?_, ?_, ?_⟩ <;>
    simp [run_async, h, call_create_plan, bindCall, create_plan_params]

/-- Witness for C9 at a concrete input. -/
theorem c9_planning_path_raises_typeError_witness :
    (envPlan.complexity "find the best laptops").use_direct_response = false ∧
    (run_async (0 + 1) true envPlan stPlanEmpty "find the best laptops").1
      = .raised (.typeError "create_plan() got an unexpected keyword argument model") ∧
    (run_async (0 + 1) true envPlan stPlanEmpty "find the best laptops").2.executorCalls
      = stPlanEmpty.executorCalls :=
  have h := c9_planning_path_raises_typeError 0 true envPlan stPlanEmpty
    "find the best laptops" rfl
  ⟨rfl, h.1, h.2.1⟩

/-- C8.  When the clarification wait on the Correlation Queue times out
(`receive_message` returned `None` after its 300-second bound), `handle_item`
returns — it neither raises nor blocks — the single synthesized `user` item
instructing the loop to terminate the task, which the turn loop then folds
into the conversation, after having emitted the `cua_clarification` event. -/
theorem c8_clarification_timeout_synthesizes_terminate (ack : String → Bool)
    (shot q : String) (rest : List (Option String)) (hq : endsWithQuestion q = true) :
    handle_item ack true shot (none :: rest) (.message q)
      = .ok ([.userItem terminateContent], rest, [("cua_clarification", q)]) := by
  simp [handle_item, hq]

/-- Witness for C8 at a concrete question. -/
theorem c8_clarification_timeout_synthesizes_terminate_witness :
    (endsWithQuestion "Should I proceed with checkout?" = true) ∧
    handle_item ackNone true "shot0" [none] (.message "Should I proceed with checkout?")
      = .ok ([.userItem terminateContent], [],
          [("cua_clarification", "Should I proceed with checkout?")]) :=
  ⟨by decide,
    c8_clarification_timeout_synthesizes_terminate ackNone "shot0"
      "Should I proceed with checkout?" [] (by decide)⟩

/-- C10.  A clarification answer that arrives in time but is the empty string
(the falsy payload) is treated exactly as a timeout: `handle_item` returns
the same result as for a timed-out wait — the synthesized terminate-task
`user` item — and does not fold the empty answer in as a `user` item. -/
theorem c10_falsy_answer_treated_as_timeout (ack : String → Bool)
    (shot q : String) (rest : List (Option String)) (hq : endsWithQuestion q = true) :
    handle_item ack true shot (some "" :: rest) (.message q)
      = handle_item ack true shot (none :: rest) (.message q) ∧
    handle_item ack true shot (some "" :: rest) (.message q)
      = .ok ([.userItem terminateContent], rest, [("cua_clarification", q)]) ∧
    handle_item ack true shot (some "" :: rest) (.message q)
      ≠ .ok ([.userItem ""], rest, [("cua_clarification", q)]) := by
  refine ⟨by simp [handle_item, hq], by simp [handle_item, hq], ?_⟩
  simp only [handle_item, hq, Bool.and_self, if_true]
  intro hcon
  simp [terminateContent] at hcon

/-- Witness for C10 at a concrete question. -/
theorem c10_falsy_answer_treated_as_timeout_witness :
    (endsWithQuestion "Which size do you want?" = true) ∧
    handle_item ackNone true "shot0" [some ""] (.message "Which size do you want?")
      = handle_item ackNone true "shot0" [none] (.message "Which size do you want?") ∧
    handle_item ackNone true "shot0" [some ""] (.message "Which size do you want?")
      = .ok ([.userItem terminateContent], [],
          [("cua_clarification", "Which size do you want?")]) :=
  have h := c10_falsy_answer_treated_as_timeout ackNone "shot0"
    "Which size do you want?" [] (by decide)
  ⟨by decide, h.1, h.2.1⟩
